import Mathlib

/-!
Verification of the query and filesystem helper functions of openmw-mm
(`src/lib/core.py`) over a shallow embedding.

The embedded source file is `core.py`; it operates on collaborator objects
(ConfigEntry, ConfigFile, Mod, Plugin, ModSource) whose classes live in other
modules of the repository that are not part of the embedded sources.  Those
collaborators are modelled from the spec (sections 3, 4.1, 4.2 and 6); each
such definition carries a doc comment starting with `Modelled from the spec:`.
The functions of `core.py` itself are translated directly from the source.
-/

namespace OpenMW

/-- Modelled from the spec: the ConfigEntry class (not part of the embedded
source file).  One logical `key=value` line of openmw.cfg; its position is its
index within the file, here the index in the ConfigFile entry list. -/
structure ConfigEntry where
  key : String
  value : String
  deriving DecidableEq

/-- Modelled from the spec: the `get_value` accessor of ConfigEntry used by
`get_orphaned_plugins` (`e.get_value()`). -/
def ConfigEntry.get_value (e : ConfigEntry) : String :=
  e.value

/-- Modelled from the spec: the ConfigFile class (not part of the embedded
source file), an ordered sequence of ConfigEntry; positions are list indices. -/
structure ConfigFile where
  entries : List ConfigEntry
  deriving DecidableEq

/-- Modelled from the spec: `ConfigFile.find_key(key)` produces the sequence of
entries whose key matches, in file order. -/
def ConfigFile.find_key (cfg : ConfigFile) (k : String) : List ConfigEntry :=
  cfg.entries.filter (fun e => e.key == k)

/-- One filesystem node: a path that exists on disk, whether that path is a
directory, and the file names a ModSource backed by it enumerates inside it. -/
structure FsNode where
  path : String
  isDir : Bool
  listing : List String
  deriving DecidableEq

/-- Shallow model of the part of the filesystem the embedded functions consult:
the finite collection of existing paths.  A path with no node does not exist on
disk. -/
structure FileSys where
  nodes : List FsNode
  deriving DecidableEq

def FileSys.findNode (fs : FileSys) (p : String) : Option FsNode :=
  fs.nodes.find? (fun n => n.path == p)

/-- `os.path.exists(p)`. -/
def FileSys.pathExists (fs : FileSys) (p : String) : Bool :=
  (fs.findNode p).isSome

/-- `os.path.isdir(p)`. -/
def FileSys.isDirectory (fs : FileSys) (p : String) : Bool :=
  ((fs.findNode p).map (fun n => n.isDir)).getD false

/-- The file names enumerated inside a source path; a missing path encloses no
files. -/
def FileSys.sourceListing (fs : FileSys) (p : String) : List String :=
  ((fs.findNode p).map (fun n => n.listing)).getD []

/-- `shutil.rmtree(p)`: the path and everything below it disappears. -/
def FileSys.rmtree (fs : FileSys) (p : String) : FileSys :=
  FileSys.mk (fs.nodes.filter
    (fun n => !(n.path == p || List.isPrefixOf (p ++ "/").data n.path.data)))

/-- Modelled from the spec: the Plugin class (not part of the embedded source
file).  A plugin has a name (its file name) and a weak back-reference to the
owning mod, here the mod path; enabled status and load order are derived from
the ConfigFile. -/
structure Plugin where
  name : String
  modPath : String
  deriving DecidableEq

/-- Modelled from the spec: `Plugin.get_name()` returns the plugin file name. -/
def Plugin.get_name (p : Plugin) : String :=
  p.name

/-- Modelled from the spec: a plugin is enabled iff its name appears as the
value of a `content` entry of the ConfigFile. -/
def Plugin.is_enabled (p : Plugin) (cfg : ConfigFile) : Bool :=
  (cfg.find_key "content").any (fun e => e.value == p.name)

/-- Modelled from the spec: the load order of a plugin is the position (file
index) of its `content` entry. -/
def Plugin.get_order (p : Plugin) (cfg : ConfigFile) : Nat :=
  cfg.entries.findIdx (fun e => e.key == "content" && e.value == p.name)

/-- Modelled from the spec: the Mod class (not part of the embedded source
file); its persisted identity is the value of its `data` entry, its path. -/
structure Mod where
  path : String
  deriving DecidableEq

/-- Modelled from the spec: `Mod.is_installed()` is true iff the mod path
currently exists on disk. -/
def Mod.is_installed (m : Mod) (fs : FileSys) : Bool :=
  fs.pathExists m.path

/-- Recognized plugin file extensions (spec section 6). -/
def pluginExtensions : List String :=
  [".esp", ".esm", ".omwaddon"]

/-- Suffix test against the recognized plugin extensions. -/
def hasPluginExtension (s : String) : Bool :=
  pluginExtensions.any (fun ext => List.isSuffixOf ext.data s.data)

/-- Modelled from the spec: `Mod.get_plugins()` asks the ModSource to enumerate
the plugin files (filtered by the recognized extensions) inside the mod path;
a missing source encloses no files, so it yields the empty list. -/
def Mod.get_plugins (m : Mod) (fs : FileSys) : List Plugin :=
  ((fs.sourceListing m.path).filter hasPluginExtension).map
    (fun n => Plugin.mk n m.path)

/-- Modelled from the spec: `ConfigFile.get_mods()` constructs one Mod per
`data` entry, in entry order. -/
def ConfigFile.get_mods (cfg : ConfigFile) : List Mod :=
  (cfg.find_key "data").map (fun e => Mod.mk e.value)

/-- The two ModSource variants of the repository
(`modsource.ModSourceDir`, `modsource.ModSourceArchive`). -/
inductive ModSource where
  | ModSourceDir (path : String)
  | ModSourceArchive (path : String)
  deriving DecidableEq

/-- `get_modsource(path)` (core.py lines 10-22): ModSourceDir when the path is
a directory on disk, otherwise ModSourceArchive. -/
def get_modsource (fs : FileSys) (path : String) : ModSource :=
  if fs.isDirectory path then ModSource.ModSourceDir path
  else ModSource.ModSourceArchive path

/-- The Python exception classes relevant here.  core.py raises `ValueError`;
the not-found and not-a-directory classes are included so that statements
about them can be made. -/
inductive PyError where
  | valueError (msg : String)
  | notFoundError (msg : String)
  | notADirectoryError (msg : String)
  deriving DecidableEq

def PyError.isNotFoundError : PyError → Bool
  | PyError.notFoundError _ => true
  | _ => false

def PyError.isNotADirectoryError : PyError → Bool
  | PyError.notADirectoryError _ => true
  | _ => false

/-- The mutable state `rm_mod_dir` could touch: the filesystem and the loaded
config file. -/
structure World where
  fs : FileSys
  cfg : ConfigFile
  deriving DecidableEq

/-- The exception produced by a call, if any. -/
def raisedBy (r : Except PyError Unit × World) : Option PyError :=
  match r.1 with
  | Except.error e => some e
  | Except.ok _ => none

/-- `rm_mod_dir(mod_dir)` (core.py lines 46-57): raise `ValueError` if the path
does not exist, then raise `ValueError` if it is not a directory, else
`shutil.rmtree` it.  The config file is never touched. -/
def rm_mod_dir (w : World) (mod_dir : String) : Except PyError Unit × World :=
  if !(w.fs.pathExists mod_dir) then
    (Except.error (PyError.valueError
      ("\x27" ++ mod_dir ++ "\x27 does not exist.")), w)
  else if !(w.fs.isDirectory mod_dir) then
    (Except.error (PyError.valueError
      ("\x27" ++ mod_dir ++ "\x27 is not a directory.")), w)
  else
    (Except.ok (), World.mk (w.fs.rmtree mod_dir) w.cfg)

/-- The mod loop of `get_plugins` (core.py lines 67-74): skip mods that are not
installed, append the plugins of each remaining mod. -/
def get_plugins_mods (fs : FileSys) : List Mod → List Plugin
  | [] => []
  | m :: ms =>
    if !(m.is_installed fs) then get_plugins_mods fs ms
    else m.get_plugins fs ++ get_plugins_mods fs ms

/-- `get_plugins(cfg)` (core.py lines 60-76). -/
def get_plugins (fs : FileSys) (cfg : ConfigFile) : List Plugin :=
  get_plugins_mods fs cfg.get_mods

/-- The sort key relation of `get_enabled_plugins`: comparison of load
orders. -/
def orderLE (cfg : ConfigFile) (a b : Plugin) : Prop :=
  a.get_order cfg ≤ b.get_order cfg

instance (cfg : ConfigFile) : DecidableRel (orderLE cfg) :=
  fun a b => Nat.decLe (a.get_order cfg) (b.get_order cfg)

instance (cfg : ConfigFile) : IsTotal Plugin (orderLE cfg) :=
  ⟨fun a b => Nat.le_total (a.get_order cfg) (b.get_order cfg)⟩

instance (cfg : ConfigFile) : IsTrans Plugin (orderLE cfg) :=
  ⟨fun _ _ _ => Nat.le_trans⟩

/-- `get_enabled_plugins(cfg)` (core.py lines 79-90): keep the enabled plugins,
then `sorted(plugins, key=get_order)` — a stable ascending sort by load order,
modelled by insertion sort over `orderLE`. -/
def get_enabled_plugins (fs : FileSys) (cfg : ConfigFile) : List Plugin :=
  List.insertionSort (orderLE cfg)
    ((get_plugins fs cfg).filter (fun p => p.is_enabled cfg))

/-- `get_disabled_plugins(cfg)` (core.py lines 93-104). -/
def get_disabled_plugins (fs : FileSys) (cfg : ConfigFile) : List Plugin :=
  (get_plugins fs cfg).filter (fun p => !(p.is_enabled cfg))

/-- `get_orphaned_plugins(cfg)` (core.py lines 107-122). -/
def get_orphaned_plugins (fs : FileSys) (cfg : ConfigFile) : List String :=
  let installed_plugins := (get_plugins fs cfg).map Plugin.get_name
  let plugins := (cfg.find_key "content").map ConfigEntry.get_value
  plugins.filter (fun p => !(installed_plugins.contains p))

/-- The mod loop of `find_plugin` (core.py lines 131-140), including the
redundant `if not plugins: continue` test of the source. -/
def find_plugin_mods (fs : FileSys) (plugin_name : String) :
    List Mod → Option Plugin
  | [] => none
  | m :: ms =>
    let plugins := m.get_plugins fs
    if plugins.isEmpty then find_plugin_mods fs plugin_name ms
    else
      match plugins.find? (fun p => p.get_name == plugin_name) with
      | some p => some p
      | none => find_plugin_mods fs plugin_name ms

/-- `find_plugin(cfg, plugin_name)` (core.py lines 125-140). -/
def find_plugin (fs : FileSys) (cfg : ConfigFile) (plugin_name : String) :
    Option Plugin :=
  find_plugin_mods fs plugin_name cfg.get_mods

/-- The spec description of `find_plugin`, written from the spec wording for
comparison: the first plugin among the plugins of the installed mods (mods in
`data`-entry order, plugins in discovery order) whose name equals the given
name. -/
def find_plugin_by_spec (fs : FileSys) (cfg : ConfigFile)
    (plugin_name : String) : Option Plugin :=
  ((cfg.get_mods.filter (fun m => m.is_installed fs)).flatMap
    (fun m => m.get_plugins fs)).find? (fun p => p.get_name == plugin_name)

/-! Concrete configurations used by witnesses and counterexamples. -/

/-- A filesystem with one installed mod directory containing `a.esp`. -/
def fsGhost : FileSys :=
  FileSys.mk [FsNode.mk "/mods/m1" true ["a.esp"]]

/-- A config file whose `content` entries mention the installed `a.esp` and,
twice, the uninstalled `ghost.esp`. -/
def cfgGhost : ConfigFile :=
  ConfigFile.mk [ConfigEntry.mk "data" "/mods/m1",
    ConfigEntry.mk "content" "a.esp",
    ConfigEntry.mk "content" "ghost.esp",
    ConfigEntry.mk "content" "ghost.esp"]

/-- Two installed mod directories that both contain a file named `a.esp`. -/
def fsDup : FileSys :=
  FileSys.mk [FsNode.mk "/mods/m1" true ["a.esp"],
    FsNode.mk "/mods/m2" true ["a.esp"]]

/-- A config file listing both duplicate mods and enabling `a.esp`. -/
def cfgDup : ConfigFile :=
  ConfigFile.mk [ConfigEntry.mk "data" "/mods/m1",
    ConfigEntry.mk "data" "/mods/m2",
    ConfigEntry.mk "content" "a.esp"]

/-- One installed mod directory containing two plugin files. -/
def fsOne : FileSys :=
  FileSys.mk [FsNode.mk "/mods/m1" true ["a.esp", "b.esp"]]

/-- A config file enabling both plugins of the single mod. -/
def cfgOne : ConfigFile :=
  ConfigFile.mk [ConfigEntry.mk "data" "/mods/m1",
    ConfigEntry.mk "content" "a.esp",
    ConfigEntry.mk "content" "b.esp"]

/-- A world whose filesystem is empty. -/
def emptyWorld : World :=
  World.mk (FileSys.mk []) (ConfigFile.mk [])

/-- A world whose filesystem holds one path that is a file, not a directory. -/
def fileWorld : World :=
  World.mk (FileSys.mk [FsNode.mk "/mods/arc.zip" false []]) (ConfigFile.mk [])

/-! Helper lemmas shared by the claim theorems. -/

/-- A mod that is not installed has no findable source node, hence an empty
plugin list. -/
lemma get_plugins_of_not_installed (m : Mod) (fs : FileSys)
    (h : m.is_installed fs = false) : m.get_plugins fs = [] := by
  unfold Mod.get_plugins FileSys.sourceListing
  unfold Mod.is_installed FileSys.pathExists at h
  cases hf : fs.findNode m.path with
  | none => simp
  | some n => rw [hf] at h; simp at h

/-- The mod loop of `get_plugins` computes the concatenation of the plugin
lists of the installed mods, in order. -/
lemma get_plugins_mods_eq (fs : FileSys) (ms : List Mod) :
    get_plugins_mods fs ms
      = (ms.filter (fun m => m.is_installed fs)).flatMap
          (fun m => m.get_plugins fs) := by
  induction ms with
  | nil => rfl
  | cons m ms ih =>
    cases h : m.is_installed fs with
    | false => simp [get_plugins_mods, h, ih]
    | true => simp [get_plugins_mods, h, ih]

/-- The mod loop of `find_plugin` computes the first name match in the
concatenated plugin list of the mod loop of `get_plugins`. -/
lemma find_plugin_mods_eq (fs : FileSys) (n : String) (ms : List Mod) :
    find_plugin_mods fs n ms
      = (get_plugins_mods fs ms).find? (fun p => p.get_name == n) := by
  induction ms with
  | nil => rfl
  | cons m ms ih =>
    cases hinst : m.is_installed fs with
    | false =>
      have hpl := get_plugins_of_not_installed m fs hinst
      simp [find_plugin_mods, get_plugins_mods, hinst, hpl, ih]
    | true =>
      simp only [find_plugin_mods, get_plugins_mods, hinst, Bool.not_true,
        Bool.false_eq_true, if_false]
      rw [List.find?_append]
      cases hpl : m.get_plugins fs with
      | nil => simp [ih]
      | cons p ps =>
        simp only [List.isEmpty_cons, Bool.false_eq_true, if_false]
        cases hf : (p :: ps).find? (fun q => q.get_name == n) with
        | some q => simp [hf]
        | none => simp [hf, ih]

/-- C5: `get_plugins(cfg)` returns the concatenation, over the mods of the
config file in `data`-entry order, of the plugin lists of the installed mods;
mods that are not installed contribute nothing (and nothing fails on them:
the function is total). -/
theorem get_plugins_concat_installed (fs : FileSys) (cfg : ConfigFile) :
    get_plugins fs cfg
      = (cfg.get_mods.filter (fun m => m.is_installed fs)).flatMap
          (fun m => m.get_plugins fs) :=
  get_plugins_mods_eq fs cfg.get_mods

/-- C3: `find_plugin(cfg, name)` returns the first installed plugin whose name
equals `name` — the first match in the concatenation, over installed mods in
`data`-entry order, of each plugin list in discovery order — and returns
`none` rather than failing when there is no match. -/
theorem find_plugin_first_installed_match (fs : FileSys) (cfg : ConfigFile)
    (n : String) :
    find_plugin fs cfg n = find_plugin_by_spec fs cfg n
    ∧ (find_plugin fs cfg n = none ↔
        ∀ p ∈ get_plugins fs cfg, p.get_name ≠ n) := by
  have h1 : find_plugin fs cfg n
      = (get_plugins fs cfg).find? (fun p => p.get_name == n) :=
    find_plugin_mods_eq fs n cfg.get_mods
  constructor
  · rw [h1]
    unfold find_plugin_by_spec
    rw [show get_plugins fs cfg
          = (cfg.get_mods.filter (fun m => m.is_installed fs)).flatMap
              (fun m => m.get_plugins fs) from get_plugins_mods_eq fs cfg.get_mods]
  · rw [h1]
    simp [List.find?_eq_none]

/-- Witness for C3 at a concrete configuration: the computed first match, and
the `none` result on a name that no installed mod provides. -/
theorem find_plugin_first_installed_match_witness :
    find_plugin fsDup cfgDup "a.esp" = find_plugin_by_spec fsDup cfgDup "a.esp"
    ∧ find_plugin fsDup cfgDup "zzz.esp" = none :=
  ⟨(find_plugin_first_installed_match fsDup cfgDup "a.esp").1,
   (find_plugin_first_installed_match fsDup cfgDup "zzz.esp").2.mpr (by decide)⟩

/-- C1: the enabled and the disabled plugin lists together are exactly the
plugins of `get_plugins` (as a multiset), every plugin of the enabled list
satisfies `is_enabled`, every plugin of the disabled list fails it, and no
plugin is in both lists. -/
theorem enabled_disabled_partition (fs : FileSys) (cfg : ConfigFile) :
    ((get_enabled_plugins fs cfg) ++ (get_disabled_plugins fs cfg)).Perm
        (get_plugins fs cfg)
    ∧ (get_enabled_plugins fs cfg).all (fun p => p.is_enabled cfg) = true
    ∧ (get_disabled_plugins fs cfg).all (fun p => !(p.is_enabled cfg)) = true
    ∧ ∀ p : Plugin,
        ¬(p ∈ get_enabled_plugins fs cfg ∧ p ∈ get_disabled_plugins fs cfg) := by
  refine ⟨?_, ?_, ?_, ?_⟩
  · unfold get_enabled_plugins get_disabled_plugins
    exact ((List.perm_insertionSort _ _).append_right _).trans
      (List.filter_append_perm _ _)
  · rw [List.all_eq_true]
    intro p hp
    unfold get_enabled_plugins at hp
    exact (List.mem_filter.mp ((List.mem_insertionSort _).mp hp)).2
  · rw [List.all_eq_true]
    intro p hp
    exact (List.mem_filter.mp hp).2
  · intro p hp
    obtain ⟨h1, h2⟩ := hp
    unfold get_enabled_plugins at h1
    have e1 := (List.mem_filter.mp ((List.mem_insertionSort _).mp h1)).2
    have e2 := (List.mem_filter.mp h2).2
    simp [e1] at e2

/-- Witness for C1 at a concrete configuration with one enabled, zero disabled
and two orphaned content entries. -/
theorem enabled_disabled_partition_witness :
    ((get_enabled_plugins fsGhost cfgGhost)
        ++ (get_disabled_plugins fsGhost cfgGhost)).Perm
        (get_plugins fsGhost cfgGhost)
    ∧ ¬(Plugin.mk "a.esp" "/mods/m1" ∈ get_enabled_plugins fsGhost cfgGhost
        ∧ Plugin.mk "a.esp" "/mods/m1" ∈ get_disabled_plugins fsGhost cfgGhost) :=
  ⟨(enabled_disabled_partition fsGhost cfgGhost).1,
   (enabled_disabled_partition fsGhost cfgGhost).2.2.2
     (Plugin.mk "a.esp" "/mods/m1")⟩

/-- C4 (amended): `get_enabled_plugins` returns exactly the plugins of
`get_plugins` whose `is_enabled` holds, sorted by nondecreasing order value;
the order values strictly increase whenever they are pairwise distinct (in
particular when no two installed mods provide an enabled plugin file of the
same name), but only nondecreasing in general. -/
theorem enabled_sorted_by_order (fs : FileSys) (cfg : ConfigFile) :
    (get_enabled_plugins fs cfg).Perm
        ((get_plugins fs cfg).filter (fun p => p.is_enabled cfg))
    ∧ (get_enabled_plugins fs cfg).Pairwise (orderLE cfg)
    ∧ (((get_enabled_plugins fs cfg).map (fun p => p.get_order cfg)).Nodup →
        (get_enabled_plugins fs cfg).Pairwise
          (fun a b => a.get_order cfg < b.get_order cfg)) := by
  refine ⟨List.perm_insertionSort _ _, List.sorted_insertionSort (orderLE cfg) _, ?_⟩
  intro hnd
  have h0 : ((get_enabled_plugins fs cfg).map
      (fun p => p.get_order cfg)).Pairwise (fun a b => a ≠ b) := hnd
  have hne := List.pairwise_map.mp h0
  have hle : (get_enabled_plugins fs cfg).Pairwise (orderLE cfg) :=
    List.sorted_insertionSort (orderLE cfg) _
  exact (hle.and hne).imp (fun h => lt_of_le_of_ne h.1 h.2)

/-- C4 counterexample: two installed mods both contain `a.esp`; the single
`content` entry (whose position is trivially unique) enables two distinct
plugin objects with the same order value, so the order values along
`get_enabled_plugins` are `[2, 2]` and do not strictly increase. -/
theorem enabled_strict_order_counterexample :
    (get_enabled_plugins fsDup cfgDup).map (fun p => p.get_order cfgDup) = [2, 2]
    ∧ ¬ (get_enabled_plugins fsDup cfgDup).Pairwise
        (fun a b => a.get_order cfgDup < b.get_order cfgDup) :=
  ⟨by decide, by decide⟩

/-- Witness for C4 at a configuration whose enabled plugins have distinct
order values, where the strict increase holds. -/
theorem enabled_sorted_by_order_witness :
    ((get_enabled_plugins fsOne cfgOne).map (fun p => p.get_order cfgOne)).Nodup
    ∧ (get_enabled_plugins fsOne cfgOne).Pairwise
        (fun a b => a.get_order cfgOne < b.get_order cfgOne) :=
  ⟨by decide, (enabled_sorted_by_order fsOne cfgOne).2.2 (by decide)⟩

/-- C6: a name is in `get_orphaned_plugins(cfg)` iff it occurs as the value of
a `content` entry of the config file and no plugin of `get_plugins(cfg)` (no
installed plugin) carries that name. -/
theorem orphaned_iff (fs : FileSys) (cfg : ConfigFile) (n : String) :
    n ∈ get_orphaned_plugins fs cfg ↔
      (n ∈ (cfg.find_key "content").map ConfigEntry.get_value
        ∧ ∀ p ∈ get_plugins fs cfg, p.get_name ≠ n) := by
  unfold get_orphaned_plugins
  simp [List.mem_filter]

/-- Witness for C6: `ghost.esp` is a content value with no installed plugin of
that name, and it is orphaned. -/
theorem orphaned_iff_witness :
    "ghost.esp" ∈ get_orphaned_plugins fsGhost cfgGhost :=
  (orphaned_iff fsGhost cfgGhost "ghost.esp").mpr ⟨by decide, by decide⟩

/-- C9: `get_orphaned_plugins` keeps the file order of the `content` entries
(its result is a sublist of the content values) and keeps multiplicity: for a
name no installed plugin carries, its count in the result equals its count
among the content values. -/
theorem orphaned_order_multiplicity (fs : FileSys) (cfg : ConfigFile) :
    (get_orphaned_plugins fs cfg).Sublist
        ((cfg.find_key "content").map ConfigEntry.get_value)
    ∧ ∀ n : String, (∀ p ∈ get_plugins fs cfg, p.get_name ≠ n) →
        (get_orphaned_plugins fs cfg).count n
          = (((cfg.find_key "content").map ConfigEntry.get_value).count n) := by
  constructor
  · unfold get_orphaned_plugins
    exact List.filter_sublist _
  · intro n hn
    unfold get_orphaned_plugins
    apply List.count_filter
    simpa using hn

/-- Witness for C9: `ghost.esp` occurs as the value of two content entries and
is reported twice. -/
theorem orphaned_order_multiplicity_witness :
    (get_orphaned_plugins fsGhost cfgGhost).count "ghost.esp" = 2 := by
  have h := (orphaned_order_multiplicity fsGhost cfgGhost).2 "ghost.esp" (by decide)
  exact h.trans (by decide)

/-- C10: no name returned by `get_orphaned_plugins` equals the name of any
plugin returned by `get_plugins` — the orphaned list and the installed plugin
population never overlap. -/
theorem orphaned_disjoint_installed (fs : FileSys) (cfg : ConfigFile) :
    ∀ n ∈ get_orphaned_plugins fs cfg, ∀ p ∈ get_plugins fs cfg,
      p.get_name ≠ n := by
  intro n hn p hp
  unfold get_orphaned_plugins at hn
  have h2 := (List.mem_filter.mp hn).2
  simp at h2
  exact h2 p hp

/-- Witness for C10: the orphaned `ghost.esp` differs from the name of the one
installed plugin. -/
theorem orphaned_disjoint_installed_witness :
    (Plugin.mk "a.esp" "/mods/m1").get_name ≠ "ghost.esp" :=
  orphaned_disjoint_installed fsGhost cfgGhost "ghost.esp" (by decide)
    (Plugin.mk "a.esp" "/mods/m1") (by decide)

/-- C7: `get_modsource(path)` returns the directory-backed variant iff the
path is a directory on disk, the archive-backed variant otherwise, and no
other result is possible. -/
theorem get_modsource_dispatch (fs : FileSys) (p : String) :
    (get_modsource fs p = ModSource.ModSourceDir p ↔ fs.isDirectory p = true)
    ∧ (get_modsource fs p = ModSource.ModSourceArchive p
        ↔ fs.isDirectory p = false)
    ∧ (get_modsource fs p = ModSource.ModSourceDir p
        ∨ get_modsource fs p = ModSource.ModSourceArchive p) := by
  unfold get_modsource
  cases h : fs.isDirectory p <;> simp [h]

/-- Witness for C7: on an empty filesystem the path is no directory, so the
archive variant is returned. -/
theorem get_modsource_dispatch_witness :
    get_modsource (FileSys.mk []) "/x" = ModSource.ModSourceArchive "/x" :=
  (get_modsource_dispatch (FileSys.mk []) "/x").2.1.mpr (by decide)

/-- C2 counterexample: on a missing path and on a file path, `rm_mod_dir`
raises `ValueError` (with the two distinguishing messages of the source), not
a not-found or a not-a-directory error class. -/
theorem rm_mod_dir_error_class_counterexample :
    raisedBy (rm_mod_dir emptyWorld "/mods/a")
        = some (PyError.valueError "\x27/mods/a\x27 does not exist.")
    ∧ ((raisedBy (rm_mod_dir emptyWorld "/mods/a")).map
        PyError.isNotFoundError).getD false = false
    ∧ raisedBy (rm_mod_dir fileWorld "/mods/arc.zip")
        = some (PyError.valueError "\x27/mods/arc.zip\x27 is not a directory.")
    ∧ ((raisedBy (rm_mod_dir fileWorld "/mods/arc.zip")).map
        PyError.isNotADirectoryError).getD false = false := by
  decide

/-- C2 (amended): `rm_mod_dir(mod_dir)` raises `ValueError` with the message
`'X' does not exist.` when the path does not exist, and `ValueError` with the
message `'X' is not a directory.` when the path exists but is not a
directory. -/
theorem rm_mod_dir_raises_value_error (w : World) (d : String) :
    (w.fs.pathExists d = false →
      (rm_mod_dir w d).1 = Except.error (PyError.valueError
        ("\x27" ++ d ++ "\x27 does not exist.")))
    ∧ (w.fs.pathExists d = true → w.fs.isDirectory d = false →
      (rm_mod_dir w d).1 = Except.error (PyError.valueError
        ("\x27" ++ d ++ "\x27 is not a directory."))) := by
  constructor
  · intro h
    simp [rm_mod_dir, h]
  · intro h1 h2
    simp [rm_mod_dir, h1, h2]

/-- Witness for C2 (amended) at the two concrete worlds. -/
theorem rm_mod_dir_raises_value_error_witness :
    (rm_mod_dir emptyWorld "/mods/a").1 = Except.error (PyError.valueError
        ("\x27" ++ "/mods/a" ++ "\x27 does not exist."))
    ∧ (rm_mod_dir fileWorld "/mods/arc.zip").1 = Except.error (PyError.valueError
        ("\x27" ++ "/mods/arc.zip" ++ "\x27 is not a directory.")) :=
  ⟨(rm_mod_dir_raises_value_error emptyWorld "/mods/a").1 (by decide),
   (rm_mod_dir_raises_value_error fileWorld "/mods/arc.zip").2
     (by decide) (by decide)⟩

/-- C8: `rm_mod_dir` checks existence and directory-ness before deleting:
whenever either check fails it raises and the whole state (filesystem and
config file) is unchanged; whenever it raises the state is unchanged; and the
config file is never modified at all. -/
theorem rm_mod_dir_fail_fast (w : World) (d : String) :
    (w.fs.pathExists d = false ∨ w.fs.isDirectory d = false →
      (raisedBy (rm_mod_dir w d)).isSome = true ∧ (rm_mod_dir w d).2 = w)
    ∧ ((raisedBy (rm_mod_dir w d)).isSome = true → (rm_mod_dir w d).2 = w)
    ∧ (rm_mod_dir w d).2.cfg = w.cfg := by
  cases hex : w.fs.pathExists d <;> cases hdir : w.fs.isDirectory d <;>
    simp [rm_mod_dir, raisedBy, hex, hdir]

/-- Witness for C8: deleting a missing path raises and leaves the world — in
particular the config file — exactly as it was. -/
theorem rm_mod_dir_fail_fast_witness :
    (raisedBy (rm_mod_dir emptyWorld "/mods/b")).isSome = true
    ∧ (rm_mod_dir emptyWorld "/mods/b").2 = emptyWorld :=
  (rm_mod_dir_fail_fast emptyWorld "/mods/b").1 (Or.inl (by decide))

end OpenMW
